import Mathlib

/-!
Shallow embedding of `src/que.js` (que.js v1.1.0, a viewport checker).

The source constructs a watcher around a DOM element:
  * merged options (que.js lines 53-60),
  * an `activated` flag (line 65),
  * `activate` / `deactivate` class-and-callback transitions (lines 67-83),
  * a `check` routine driven by scroll/resize signals (lines 85-98),
  * `detach` removing both listeners (lines 100-103),
  * construction wires the listeners and runs one synchronous check
    (lines 105-109), returning `none` when the selector matches nothing
    (lines 62-63).

DOM side effects are embedded as explicit state: the element's class list
is a `List String` with DOM-token-set semantics, callback invocations are
logged as a list of action strings, and the two event subscriptions are
booleans consulted when a scroll or resize signal is delivered.
-/

namespace Que

/-- A bounding client rectangle: `top` and `bottom` in pixels measured from
the viewport top (que.js line 86). Coordinates may be negative. -/
structure Rect where
  top : Int
  bottom : Int
deriving Repr, DecidableEq

/-- The merged option record (que.js lines 53-60). `hasCallback` embeds the
`typeof options.callback === 'function'` test of lines 70 and 79: `true`
means a function was supplied. -/
structure Options where
  classToAdd : String
  classToRemove : Option String
  offset : Int
  once : Bool
  repeat' : Bool
  hasCallback : Bool
deriving Repr, DecidableEq

/-- A user-supplied options object: `none` means the field is absent and the
default applies (`Object.assign` over the defaults, que.js line 53). -/
structure Opts where
  classToAdd : Option String := none
  classToRemove : Option (Option String) := none
  offset : Option Int := none
  once : Option Bool := none
  repeat' : Option Bool := none
  hasCallback : Option Bool := none

/-- `Object.assign({classToAdd:'que', classToRemove:null, offset:0,
once:true, repeat:false, callback:null}, opts || {})` (que.js lines 53-60). -/
def mergeOptions (u : Opts) : Options :=
  { classToAdd := u.classToAdd.getD "que",
    classToRemove := u.classToRemove.getD none,
    offset := u.offset.getD 0,
    once := u.once.getD true,
    repeat' := u.repeat'.getD false,
    hasCallback := u.hasCallback.getD false }

/-- The mutable state owned by one watcher closure: the target element's
class list, the `activated` flag (que.js line 65), whether each of the two
listeners is currently subscribed (lines 105-106 add them, lines 101-102
remove them), and the log of actions passed to the callback. -/
structure WatcherState where
  classes : List String
  activated : Bool
  scrollAttached : Bool
  resizeAttached : Bool
  callbacks : List String
deriving Repr, DecidableEq

/-- `el.classList.add c`: a DOM token set ignores an add of a token already
present. -/
def classAdd (cs : List String) (c : String) : List String :=
  if c ∈ cs then cs else cs ++ [c]

/-- `el.classList.remove c`: removes every occurrence of the token. -/
def classRemove (cs : List String) (c : String) : List String :=
  cs.filter (fun x => x ≠ c)

/-- JavaScript truthiness of the `string|null` field `classToRemove`
(que.js lines 69 and 78): `null` and the empty string are falsy. -/
def strTruthy : Option String → Bool
  | none => false
  | some s => s != ""

/-- `activate()` (que.js lines 67-74): add `classToAdd`, remove
`classToRemove` when truthy, invoke the callback with `'add'` when it is a
function, set `activated = true`. -/
def activate (o : Options) (s : WatcherState) : WatcherState :=
  let cs := classAdd s.classes o.classToAdd
  let cs := if strTruthy o.classToRemove then classRemove cs (o.classToRemove.getD "") else cs
  { s with classes := cs,
           callbacks := if o.hasCallback then s.callbacks ++ ["add"] else s.callbacks,
           activated := true }

/-- `deactivate()` (que.js lines 76-83): remove `classToAdd`, add
`classToRemove` when truthy, invoke the callback with `'remove'` when it is
a function, set `activated = false`. -/
def deactivate (o : Options) (s : WatcherState) : WatcherState :=
  let cs := classRemove s.classes o.classToAdd
  let cs := if strTruthy o.classToRemove then classAdd cs (o.classToRemove.getD "") else cs
  { s with classes := cs,
           callbacks := if o.hasCallback then s.callbacks ++ ["remove"] else s.callbacks,
           activated := false }

/-- `detach()` (que.js lines 100-103): `removeEventListener` for both the
scroll and the resize listener. Nothing else is touched. -/
def detach (s : WatcherState) : WatcherState :=
  { s with scrollAttached := false, resizeAttached := false }

/-- `inView = rect.top < vh - options.offset && rect.bottom > options.offset`
(que.js line 88). -/
def inView (o : Options) (vh : Int) (r : Rect) : Bool :=
  decide (r.top < vh - o.offset) && decide (r.bottom > o.offset)

/-- `check()` (que.js lines 85-98), with the bounding rectangle and the
viewport height of this invocation passed explicitly. -/
def check (o : Options) (vh : Int) (r : Rect) (s : WatcherState) : WatcherState :=
  let iv := inView o vh r
  if iv && (!s.activated || o.repeat') then
    let s1 := activate o s
    if o.once && !o.repeat' then detach s1 else s1
  else if !iv && s.activated && o.repeat' then
    deactivate o s
  else s

/-- The element returned by `document.querySelector`, reduced to the only
part the watcher reads or writes: its class list. -/
structure Element where
  classes : List String
deriving Repr, DecidableEq

/-- The watcher state right after both listeners are added (que.js lines
105-106), before the synchronous initial `check()` of line 107. -/
def initialState (el : Element) : WatcherState :=
  { classes := el.classes, activated := false,
    scrollAttached := true, resizeAttached := true, callbacks := [] }

/-- `que(selector, opts)` (que.js lines 52-110). `found` is the result of
`document.querySelector(selector)` (line 62): when it is `none` the
function returns `undefined` at line 63 and nothing happens; otherwise the
listeners are attached and the initial synchronous `check()` runs with the
given rectangle and viewport height. -/
def que (found : Option Element) (u : Opts) (vh : Int) (r : Rect) :
    Option WatcherState :=
  match found with
  | none => none
  | some el => some (check (mergeOptions u) vh r (initialState el))

/-- The two process-wide signals the watcher subscribes to. -/
inductive SignalKind where
  | scroll
  | resize
deriving Repr, DecidableEq

/-- Whether the listener for the given signal kind is subscribed. -/
def attachedFor (s : WatcherState) : SignalKind → Bool
  | SignalKind.scroll => s.scrollAttached
  | SignalKind.resize => s.resizeAttached

/-- One scroll or resize signal with the rectangle and viewport height
observed at that moment. -/
structure Event where
  kind : SignalKind
  vh : Int
  rect : Rect
deriving Repr, DecidableEq

/-- Delivering one signal: the handler `check` runs only while its listener
is subscribed. -/
def signal (o : Options) (ev : Event) (s : WatcherState) : WatcherState :=
  if attachedFor s ev.kind then check o ev.vh ev.rect s else s

/-- Delivering a sequence of signals in order. -/
def signals (o : Options) (evs : List Event) (s : WatcherState) : WatcherState :=
  evs.foldl (fun s ev => signal o ev s) s

/-- A list of events whose in-view values alternate, the next expected value
being `b`. -/
def AltInView (o : Options) : Bool → List Event → Prop
  | _, [] => True
  | b, ev :: evs => inView o ev.vh ev.rect = b ∧ AltInView o (!b) evs

/-- The alternating callback trace of length `n`, starting with `"add"` when
`b` is true and with `"remove"` otherwise. -/
def altActions : Bool → Nat → List String
  | _, 0 => []
  | b, n + 1 => (if b then "add" else "remove") :: altActions (!b) n

/-- Callback-log invariant: a nonempty log starts with `"add"`, and an
activated watcher whose options carry a callback has a nonempty log. -/
def CbInv (o : Options) (s : WatcherState) : Prop :=
  (s.callbacks ≠ [] → s.callbacks.head? = some "add") ∧
  (s.activated = true → o.hasCallback = true → s.callbacks ≠ [])

/-! ### Basic lemmas about the class-list operations -/

theorem mem_classAdd {cs : List String} {c x : String} :
    x ∈ classAdd cs c ↔ x ∈ cs ∨ x = c := by
  unfold classAdd
  split
  · rename_i hc
    constructor
    · exact Or.inl
    · rintro (hx | rfl)
      · exact hx
      · exact hc
  · simp

theorem mem_classRemove {cs : List String} {c x : String} :
    x ∈ classRemove cs c ↔ x ∈ cs ∧ x ≠ c := by
  simp [classRemove]

@[simp] theorem self_mem_classAdd {cs : List String} {c : String} :
    c ∈ classAdd cs c := mem_classAdd.mpr (Or.inr rfl)

@[simp] theorem self_not_mem_classRemove {cs : List String} {c : String} :
    c ∉ classRemove cs c := fun h => (mem_classRemove.mp h).2 rfl

/-! ### Projection lemmas for the transitions -/

@[simp] theorem activate_activated (o : Options) (s : WatcherState) :
    (activate o s).activated = true := rfl

@[simp] theorem activate_scrollAttached (o : Options) (s : WatcherState) :
    (activate o s).scrollAttached = s.scrollAttached := rfl

@[simp] theorem activate_resizeAttached (o : Options) (s : WatcherState) :
    (activate o s).resizeAttached = s.resizeAttached := rfl

@[simp] theorem activate_callbacks (o : Options) (s : WatcherState) :
    (activate o s).callbacks =
      if o.hasCallback then s.callbacks ++ ["add"] else s.callbacks := rfl

theorem activate_classes (o : Options) (s : WatcherState) :
    (activate o s).classes =
      if strTruthy o.classToRemove then
        classRemove (classAdd s.classes o.classToAdd) (o.classToRemove.getD "")
      else classAdd s.classes o.classToAdd := by
  unfold activate
  split <;> rfl

@[simp] theorem deactivate_activated (o : Options) (s : WatcherState) :
    (deactivate o s).activated = false := rfl

@[simp] theorem deactivate_scrollAttached (o : Options) (s : WatcherState) :
    (deactivate o s).scrollAttached = s.scrollAttached := rfl

@[simp] theorem deactivate_resizeAttached (o : Options) (s : WatcherState) :
    (deactivate o s).resizeAttached = s.resizeAttached := rfl

@[simp] theorem deactivate_callbacks (o : Options) (s : WatcherState) :
    (deactivate o s).callbacks =
      if o.hasCallback then s.callbacks ++ ["remove"] else s.callbacks := rfl

theorem deactivate_classes (o : Options) (s : WatcherState) :
    (deactivate o s).classes =
      if strTruthy o.classToRemove then
        classAdd (classRemove s.classes o.classToAdd) (o.classToRemove.getD "")
      else classRemove s.classes o.classToAdd := by
  unfold deactivate
  split <;> rfl

@[simp] theorem detach_activated (s : WatcherState) :
    (detach s).activated = s.activated := rfl

@[simp] theorem detach_classes (s : WatcherState) :
    (detach s).classes = s.classes := rfl

@[simp] theorem detach_callbacks (s : WatcherState) :
    (detach s).callbacks = s.callbacks := rfl

@[simp] theorem detach_scrollAttached (s : WatcherState) :
    (detach s).scrollAttached = false := rfl

@[simp] theorem detach_resizeAttached (s : WatcherState) :
    (detach s).resizeAttached = false := rfl

/-! ### Branch lemmas for `check` -/

theorem check_eq_self_of_notInView_inactive {o : Options} {vh : Int} {r : Rect}
    {s : WatcherState} (hiv : inView o vh r = false) (hact : s.activated = false) :
    check o vh r s = s := by
  simp [check, hiv, hact]

theorem check_eq_self_of_activated_norepeat {o : Options} {vh : Int} {r : Rect}
    {s : WatcherState} (hrep : o.repeat' = false) (hact : s.activated = true) :
    check o vh r s = s := by
  simp [check, hrep, hact]

theorem check_eq_detach_activate {o : Options} {vh : Int} {r : Rect}
    {s : WatcherState} (hiv : inView o vh r = true) (hact : s.activated = false)
    (honce : o.once = true) (hrep : o.repeat' = false) :
    check o vh r s = detach (activate o s) := by
  simp [check, hiv, hact, honce, hrep]

theorem check_eq_activate_of_inactive_norepeat_noonce {o : Options} {vh : Int}
    {r : Rect} {s : WatcherState} (hiv : inView o vh r = true)
    (hact : s.activated = false) (honce : o.once = false) :
    check o vh r s = activate o s := by
  simp [check, hiv, hact, honce]

theorem check_eq_activate_of_repeat {o : Options} {vh : Int} {r : Rect}
    {s : WatcherState} (hrep : o.repeat' = true) (hiv : inView o vh r = true) :
    check o vh r s = activate o s := by
  simp [check, hiv, hrep]

theorem check_eq_deactivate_of_repeat {o : Options} {vh : Int} {r : Rect}
    {s : WatcherState} (hrep : o.repeat' = true) (hiv : inView o vh r = false)
    (hact : s.activated = true) :
    check o vh r s = deactivate o s := by
  simp [check, hiv, hrep, hact]

/-! ### Signal delivery lemmas -/

theorem signals_nil (o : Options) (s : WatcherState) : signals o [] s = s := rfl

theorem signals_cons (o : Options) (ev : Event) (evs : List Event)
    (s : WatcherState) : signals o (ev :: evs) s = signals o evs (signal o ev s) := rfl

theorem signal_eq_self_of_detached {o : Options} {ev : Event} {s : WatcherState}
    (h1 : s.scrollAttached = false) (h2 : s.resizeAttached = false) :
    signal o ev s = s := by
  unfold signal
  cases hk : ev.kind <;> simp [attachedFor, h1, h2, hk]

theorem signal_eq_check_of_attached {o : Options} {ev : Event} {s : WatcherState}
    (h1 : s.scrollAttached = true) (h2 : s.resizeAttached = true) :
    signal o ev s = check o ev.vh ev.rect s := by
  unfold signal
  cases hk : ev.kind <;> simp [attachedFor, h1, h2, hk]

theorem signals_eq_self {o : Options} {s : WatcherState}
    (h : ∀ ev, signal o ev s = s) : ∀ evs, signals o evs s = s := by
  intro evs
  induction evs with
  | nil => rfl
  | cons ev evs ih => rw [signals_cons, h ev]; exact ih

theorem signals_eq_self_of_detached {o : Options} {s : WatcherState}
    (h1 : s.scrollAttached = false) (h2 : s.resizeAttached = false)
    (evs : List Event) : signals o evs s = s :=
  signals_eq_self (fun _ => signal_eq_self_of_detached h1 h2) evs

theorem check_eq_of_inView_inactive {o : Options} {vh : Int} {r : Rect}
    {s : WatcherState} (hiv : inView o vh r = true) (hact : s.activated = false) :
    check o vh r s =
      if o.once && !o.repeat' then detach (activate o s) else activate o s := by
  simp [check, hiv, hact]

theorem inView_once_update (o : Options) (b : Bool) (vh : Int) (r : Rect) :
    inView { o with once := b } vh r = inView o vh r := rfl

/-! ### The alternation lemma behind C4 -/

theorem signals_alt_callbacks (o : Options) (hrep : o.repeat' = true)
    (hcb : o.hasCallback = true) :
    ∀ (evs : List Event) (b : Bool) (s : WatcherState),
      AltInView o b evs → s.activated = !b →
      s.scrollAttached = true → s.resizeAttached = true →
      (signals o evs s).callbacks = s.callbacks ++ altActions b evs.length := by
  intro evs
  induction evs with
  | nil =>
    intro b s _ _ _ _
    simp [signals_nil, altActions]
  | cons ev evs ih =>
    intro b s hAlt hact h1 h2
    rw [signals_cons, signal_eq_check_of_attached h1 h2]
    cases b with
    | false =>
      have hiv : inView o ev.vh ev.rect = false := hAlt.1
      have hact' : s.activated = true := by simpa using hact
      rw [check_eq_deactivate_of_repeat hrep hiv hact']
      rw [ih true (deactivate o s) hAlt.2 (by simp) (by simp [h1]) (by simp [h2])]
      simp [hcb, altActions]
    | true =>
      have hiv : inView o ev.vh ev.rect = true := hAlt.1
      rw [check_eq_activate_of_repeat hrep hiv]
      rw [ih false (activate o s) hAlt.2 (by simp) (by simp [h1]) (by simp [h2])]
      simp [hcb, altActions]

/-! ### The shape of a single check, and the callback-log invariant (C9) -/

theorem head?_append_left {α : Type} {l l' : List α} (h : l ≠ []) :
    (l ++ l').head? = l.head? := by
  cases l with
  | nil => exact absurd rfl h
  | cons a t => rfl

theorem check_shape (o : Options) (vh : Int) (r : Rect) (s : WatcherState) :
    check o vh r s = s ∨ check o vh r s = activate o s ∨
    check o vh r s = detach (activate o s) ∨
    (s.activated = true ∧ check o vh r s = deactivate o s) := by
  simp only [check]
  split
  · split
    · right; right; left; rfl
    · right; left; rfl
  · split
    · rename_i h2
      right; right; right
      refine ⟨?_, rfl⟩
      simp only [Bool.and_eq_true] at h2
      exact h2.1.2
    · left; rfl

theorem activate_CbInv {o : Options} {s : WatcherState} (h : CbInv o s) :
    CbInv o (activate o s) := by
  constructor
  · intro hne
    by_cases hcb : o.hasCallback = true
    · have e : (activate o s).callbacks = s.callbacks ++ ["add"] := by simp [hcb]
      rw [e]
      cases hl : s.callbacks with
      | nil => rfl
      | cons a t =>
        rw [head?_append_left (by simp [hl])]
        exact hl ▸ h.1 (by simp [hl])
    · have hcb' : o.hasCallback = false := by simpa using hcb
      have e : (activate o s).callbacks = s.callbacks := by simp [hcb']
      rw [e] at hne ⊢
      exact h.1 hne
  · intro _ hcb
    simp [hcb]

theorem deactivate_CbInv {o : Options} {s : WatcherState} (h : CbInv o s)
    (hact : s.activated = true) : CbInv o (deactivate o s) := by
  constructor
  · intro hne
    by_cases hcb : o.hasCallback = true
    · have hne' : s.callbacks ≠ [] := h.2 hact hcb
      have e : (deactivate o s).callbacks = s.callbacks ++ ["remove"] := by
        simp [hcb]
      rw [e, head?_append_left hne']
      exact h.1 hne'
    · have hcb' : o.hasCallback = false := by simpa using hcb
      have e : (deactivate o s).callbacks = s.callbacks := by simp [hcb']
      rw [e] at hne ⊢
      exact h.1 hne
  · intro hact' _
    simp at hact'

theorem detach_CbInv {o : Options} {s : WatcherState} (h : CbInv o s) :
    CbInv o (detach s) := h

theorem check_CbInv {o : Options} {vh : Int} {r : Rect} {s : WatcherState}
    (h : CbInv o s) : CbInv o (check o vh r s) := by
  rcases check_shape o vh r s with e | e | e | ⟨hact, e⟩ <;> rw [e]
  · exact h
  · exact activate_CbInv h
  · exact detach_CbInv (activate_CbInv h)
  · exact deactivate_CbInv h hact

theorem signal_CbInv {o : Options} {ev : Event} {s : WatcherState}
    (h : CbInv o s) : CbInv o (signal o ev s) := by
  unfold signal
  split
  · exact check_CbInv h
  · exact h

theorem signals_CbInv {o : Options} (evs : List Event) {s : WatcherState}
    (h : CbInv o s) : CbInv o (signals o evs s) := by
  induction evs generalizing s with
  | nil => exact h
  | cons ev evs ih => exact ih (signal_CbInv h)

/-! ### Freezing lemmas for repeat=false (C10) -/

theorem signal_eq_self_of_activated_norepeat {o : Options} {ev : Event}
    {s : WatcherState} (hrep : o.repeat' = false) (hact : s.activated = true) :
    signal o ev s = s := by
  unfold signal
  split
  · exact check_eq_self_of_activated_norepeat hrep hact
  · rfl

theorem signals_eq_self_of_activated_norepeat {o : Options} {s : WatcherState}
    (hrep : o.repeat' = false) (hact : s.activated = true) (evs : List Event) :
    signals o evs s = s :=
  signals_eq_self (fun _ => signal_eq_self_of_activated_norepeat hrep hact) evs

theorem signals_callbacks_norepeat {o : Options} (hrep : o.repeat' = false) :
    ∀ (evs : List Event) (s : WatcherState), s.activated = false →
      (signals o evs s).callbacks = s.callbacks ∨
      (signals o evs s).callbacks =
        s.callbacks ++ (if o.hasCallback then ["add"] else []) := by
  intro evs
  induction evs with
  | nil => intro s _; left; rfl
  | cons ev evs ih =>
    intro s hact
    rw [signals_cons]
    by_cases hatt : attachedFor s ev.kind = true
    · have e : signal o ev s = check o ev.vh ev.rect s := by
        unfold signal
        rw [if_pos hatt]
      rw [e]
      cases hiv : inView o ev.vh ev.rect with
      | false =>
        rw [check_eq_self_of_notInView_inactive hiv hact]
        exact ih s hact
      | true =>
        rw [check_eq_of_inView_inactive hiv hact]
        have hact1 : (if o.once && !o.repeat' then detach (activate o s)
            else activate o s).activated = true := by
          split <;> simp
        have hcb1 : (if o.once && !o.repeat' then detach (activate o s)
            else activate o s).callbacks =
            s.callbacks ++ (if o.hasCallback then ["add"] else []) := by
          split <;> (cases hcb : o.hasCallback <;> simp [hcb])
        rw [signals_eq_self_of_activated_norepeat hrep hact1, hcb1]
        right
        rfl
    · have e : signal o ev s = s := by
        unfold signal
        rw [if_neg hatt]
      rw [e]
      exact ih s hact

/-! ### Claim theorems -/

/-- C1: the in-view predicate computed by `check` is exactly
`top < vh - offset && bottom > offset`; an element fully above the viewport
(`bottom ≤ offset`) or fully below it (`top ≥ vh - offset`) is never in view
and a check on an untouched (not yet activated) watcher is a complete no-op;
and in the concrete scenario offset=50, vh=800, rect (700, 750) with the
default once/repeat configuration the watcher activates, class "que" is
added, the callback is invoked once with "add", and both listeners are
detached. -/
theorem C1_inView_predicate_and_scenario :
    (∀ (o : Options) (vh : Int) (r : Rect),
       inView o vh r =
         (decide (r.top < vh - o.offset) && decide (r.bottom > o.offset)))
  ∧ (∀ (o : Options) (vh : Int) (r : Rect),
       (r.bottom ≤ o.offset ∨ vh - o.offset ≤ r.top) →
       inView o vh r = false ∧
       ∀ s : WatcherState, s.activated = false → check o vh r s = s)
  ∧ que (some ⟨["sect-1"]⟩) { offset := some 50, hasCallback := some true }
        800 ⟨700, 750⟩ =
      some { classes := ["sect-1", "que"], activated := true,
             scrollAttached := false, resizeAttached := false,
             callbacks := ["add"] } := by
  refine ⟨fun o vh r => rfl, ?_, by decide⟩
  intro o vh r h
  have hiv : inView o vh r = false := by
    unfold inView
    rcases h with h | h
    · have hb : ¬ (o.offset < r.bottom) := not_lt.mpr h
      simp [hb]
    · have ht : ¬ (r.top < vh - o.offset) := not_lt.mpr h
      simp [ht]
  exact ⟨hiv, fun s hs => check_eq_self_of_notInView_inactive hiv hs⟩

/-- Witness for C1 at offset 0, vh 800, rect (900, 950): the rect is fully
below the viewport, so the check is a no-op on an untouched watcher. -/
theorem C1_inView_predicate_and_scenario_witness :
    inView (mergeOptions {}) 800 ⟨900, 950⟩ = false ∧
    check (mergeOptions {}) 800 ⟨900, 950⟩ (initialState ⟨[]⟩) =
      initialState ⟨[]⟩ := by
  have h := C1_inView_predicate_and_scenario.2.1 (mergeOptions {}) 800 ⟨900, 950⟩
    (Or.inr (by decide))
  exact ⟨h.1, h.2 (initialState ⟨[]⟩) rfl⟩

/-- C2: with once=true and repeat=false, the first check in which the element
is in view activates the watcher (logging one "add" callback when a callback
was supplied) and removes both subscriptions, after which delivering any
further sequence of scroll or resize signals changes nothing at all. -/
theorem C2_once_activation_detaches (o : Options) (vh : Int) (r : Rect)
    (s : WatcherState) (honce : o.once = true) (hrep : o.repeat' = false)
    (hact : s.activated = false) (hiv : inView o vh r = true) :
    (check o vh r s).activated = true ∧
    (check o vh r s).scrollAttached = false ∧
    (check o vh r s).resizeAttached = false ∧
    (check o vh r s).callbacks =
      (if o.hasCallback then s.callbacks ++ ["add"] else s.callbacks) ∧
    ∀ evs : List Event, signals o evs (check o vh r s) = check o vh r s := by
  rw [check_eq_detach_activate hiv hact honce hrep]
  exact ⟨by simp, by simp, by simp, by simp,
    fun evs => signals_eq_self_of_detached (by simp) (by simp) evs⟩

/-- Witness for C2: defaults (once=true, repeat=false, callback supplied),
vh 800, rect (0, 100); after the activating check a further scroll signal is
inert. -/
theorem C2_once_activation_detaches_witness :
    (check (mergeOptions { hasCallback := some true }) 800 ⟨0, 100⟩
        (initialState ⟨[]⟩)).activated = true ∧
    (check (mergeOptions { hasCallback := some true }) 800 ⟨0, 100⟩
        (initialState ⟨[]⟩)).scrollAttached = false ∧
    signals (mergeOptions { hasCallback := some true })
        [⟨SignalKind.scroll, 800, ⟨0, 100⟩⟩]
        (check (mergeOptions { hasCallback := some true }) 800 ⟨0, 100⟩
          (initialState ⟨[]⟩)) =
      check (mergeOptions { hasCallback := some true }) 800 ⟨0, 100⟩
        (initialState ⟨[]⟩) := by
  have h := C2_once_activation_detaches (mergeOptions { hasCallback := some true })
    800 ⟨0, 100⟩ (initialState ⟨[]⟩) rfl rfl rfl (by decide)
  exact ⟨h.1, h.2.1, h.2.2.2.2 _⟩

/-- C6: when the selector resolves to no element, `que` returns no handle
and nothing happens: no state is created, no listener attached, no class
touched, no callback run. -/
theorem C6_unresolved_selector_noop (u : Opts) (vh : Int) (r : Rect) :
    que none u vh r = none := rfl

/-- C7: `detach` is idempotent — iterating it any number of times equals one
call — and it changes nothing but the two subscription flags: the activated
flag, the class list and the callback log are untouched. -/
theorem C7_detach_idempotent (s : WatcherState) (n : Nat) :
    detach (detach s) = detach s ∧
    detach^[n] (detach s) = detach s ∧
    (detach s).activated = s.activated ∧
    (detach s).classes = s.classes ∧
    (detach s).callbacks = s.callbacks ∧
    (detach s).scrollAttached = false ∧
    (detach s).resizeAttached = false :=
  ⟨rfl, Function.iterate_fixed rfl n, rfl, rfl, rfl, rfl, rfl⟩

/-- C3 counterexample: with once=true and repeat=true the watcher does NOT
detach after the first activation — both listeners remain subscribed — and
repeat is observable even with once=true: a later out-of-view scroll signal
still deactivates, removes the class and logs a "remove" callback. -/
theorem C3_counterexample_no_detach_when_repeat :
    (que (some ⟨[]⟩)
        { once := some true, repeat' := some true, hasCallback := some true }
        800 ⟨0, 100⟩ =
      some { classes := ["que"], activated := true, scrollAttached := true,
             resizeAttached := true, callbacks := ["add"] }) ∧
    (signal (mergeOptions
          { once := some true, repeat' := some true, hasCallback := some true })
        ⟨SignalKind.scroll, 800, ⟨900, 950⟩⟩
        { classes := ["que"], activated := true, scrollAttached := true,
          resizeAttached := true, callbacks := ["add"] } =
      { classes := [], activated := false, scrollAttached := true,
        resizeAttached := true, callbacks := ["add", "remove"] }) :=
  ⟨by decide, by decide⟩

/-- C3 (amended): when once=true and repeat=true, the watcher does not
detach after the first activation — with repeat=true a check never changes
either subscription — and it is `once` that has no observable effect when
repeat=true: check behaves identically for once=true and once=false. -/
theorem C3_amended_repeat_overrides_once (o : Options) (hrep : o.repeat' = true)
    (vh : Int) (r : Rect) (s : WatcherState) :
    (check o vh r s).scrollAttached = s.scrollAttached ∧
    (check o vh r s).resizeAttached = s.resizeAttached ∧
    check { o with once := true } vh r s = check { o with once := false } vh r s := by
  have h1 : (check o vh r s).scrollAttached = s.scrollAttached ∧
      (check o vh r s).resizeAttached = s.resizeAttached := by
    cases hiv : inView o vh r with
    | false =>
      cases hact : s.activated with
      | false =>
        rw [check_eq_self_of_notInView_inactive hiv hact]
        exact ⟨rfl, rfl⟩
      | true =>
        rw [check_eq_deactivate_of_repeat hrep hiv hact]
        exact ⟨by simp, by simp⟩
    | true =>
      rw [check_eq_activate_of_repeat hrep hiv]
      exact ⟨by simp, by simp⟩
  refine ⟨h1.1, h1.2, ?_⟩
  cases hiv : inView o vh r with
  | false =>
    cases hact : s.activated with
    | false =>
      rw [@check_eq_self_of_notInView_inactive { o with once := true } vh r s hiv hact,
          @check_eq_self_of_notInView_inactive { o with once := false } vh r s hiv hact]
    | true =>
      rw [@check_eq_deactivate_of_repeat { o with once := true } vh r s hrep hiv hact,
          @check_eq_deactivate_of_repeat { o with once := false } vh r s hrep hiv hact]
      rfl
  | true =>
    rw [@check_eq_activate_of_repeat { o with once := true } vh r s hrep hiv,
        @check_eq_activate_of_repeat { o with once := false } vh r s hrep hiv]
    rfl

/-- Witness for C3 (amended): once=true, repeat=true, defaults otherwise,
vh 800, rect (0, 100) on a fresh watcher state. -/
theorem C3_amended_repeat_overrides_once_witness :
    (check (mergeOptions { once := some true, repeat' := some true }) 800 ⟨0, 100⟩
        (initialState ⟨[]⟩)).scrollAttached = (initialState ⟨[]⟩).scrollAttached ∧
    check { mergeOptions { once := some true, repeat' := some true } with
        once := true } 800 ⟨0, 100⟩ (initialState ⟨[]⟩) =
      check { mergeOptions { once := some true, repeat' := some true } with
        once := false } 800 ⟨0, 100⟩ (initialState ⟨[]⟩) := by
  have h := C3_amended_repeat_overrides_once
    (mergeOptions { once := some true, repeat' := some true }) rfl
    800 ⟨0, 100⟩ (initialState ⟨[]⟩)
  exact ⟨h.1, h.2.2⟩

/-- C5 counterexample: classToRemove = "out", element already carrying both
"que" and "out", rect (900, 950) fully below the 800-pixel viewport: the
check is a no-op on the untouched watcher and afterwards the class list
still contains both classToAdd and classToRemove. -/
theorem C5_counterexample_both_classes_survive :
    (mergeOptions { classToRemove := some (some "out") }).classToAdd = "que" ∧
    (mergeOptions { classToRemove := some (some "out") }).classToRemove = some "out" ∧
    "que" ∈ (check (mergeOptions { classToRemove := some (some "out") }) 800
        ⟨900, 950⟩
        { classes := ["que", "out"], activated := false, scrollAttached := true,
          resizeAttached := true, callbacks := [] }).classes ∧
    "out" ∈ (check (mergeOptions { classToRemove := some (some "out") }) 800
        ⟨900, 950⟩
        { classes := ["que", "out"], activated := false, scrollAttached := true,
          resizeAttached := true, callbacks := [] }).classes :=
  ⟨rfl, rfl, by decide, by decide⟩

/-- C5 (amended): for a nonempty classToRemove distinct from classToAdd,
`check` preserves mutual exclusion: if the class list does not already
contain both classToAdd and classToRemove, then after the check it still
does not contain both (a no-op check leaves pre-existing classes alone, so
the invariant holds after every check only when it held before). -/
theorem C5_amended_check_preserves_exclusion (o : Options) (c : String)
    (vh : Int) (r : Rect) (s : WatcherState)
    (hc : o.classToRemove = some c) (hcne : c ≠ "") (hdist : c ≠ o.classToAdd)
    (hpre : ¬(o.classToAdd ∈ s.classes ∧ c ∈ s.classes)) :
    ¬(o.classToAdd ∈ (check o vh r s).classes ∧
      c ∈ (check o vh r s).classes) := by
  have ht : strTruthy o.classToRemove = true := by
    rw [hc]; simpa [strTruthy] using hcne
  have hA : c ∉ (activate o s).classes := by
    simp [activate_classes, hc, strTruthy, hcne]
  have hD : o.classToAdd ∉ (deactivate o s).classes := by
    simp [deactivate_classes, hc, strTruthy, hcne, mem_classAdd,
      mem_classRemove, Ne.symm hdist]
  cases hiv : inView o vh r with
  | false =>
    cases hact : s.activated with
    | false => rw [check_eq_self_of_notInView_inactive hiv hact]; exact hpre
    | true =>
      cases hrep : o.repeat' with
      | false => rw [check_eq_self_of_activated_norepeat hrep hact]; exact hpre
      | true =>
        rw [check_eq_deactivate_of_repeat hrep hiv hact]
        exact fun hcon => hD hcon.1
  | true =>
    cases hact : s.activated with
    | false =>
      rw [check_eq_of_inView_inactive hiv hact]
      have hcl : (if o.once && !o.repeat' then detach (activate o s)
          else activate o s).classes = (activate o s).classes := by
        split <;> simp
      rw [hcl]
      exact fun hcon => hA hcon.2
    | true =>
      cases hrep : o.repeat' with
      | false => rw [check_eq_self_of_activated_norepeat hrep hact]; exact hpre
      | true =>
        rw [check_eq_activate_of_repeat hrep hiv]
        exact fun hcon => hA hcon.2

/-- Witness for C5 (amended): classToRemove "out", fresh watcher with empty
class list, vh 800, rect (0, 100). -/
theorem C5_amended_check_preserves_exclusion_witness :
    ¬((mergeOptions { classToRemove := some (some "out") }).classToAdd ∈
        (check (mergeOptions { classToRemove := some (some "out") }) 800 ⟨0, 100⟩
          (initialState ⟨[]⟩)).classes ∧
      "out" ∈ (check (mergeOptions { classToRemove := some (some "out") }) 800
          ⟨0, 100⟩ (initialState ⟨[]⟩)).classes) :=
  C5_amended_check_preserves_exclusion
    (mergeOptions { classToRemove := some (some "out") }) "out" 800 ⟨0, 100⟩
    (initialState ⟨[]⟩) rfl (by decide) (by decide) (by decide)

/-- C8 counterexample: classToRemove = "out" and a check with the element
out of view (rect (900, 950), vh 800) on an untouched watcher leaves the
class list without "out": out-of-view checks do not apply classToRemove
unless the watcher deactivates. -/
theorem C8_counterexample_out_of_view_no_class :
    (mergeOptions { classToRemove := some (some "out") }).classToRemove =
      some "out" ∧
    inView (mergeOptions { classToRemove := some (some "out") }) 800
      ⟨900, 950⟩ = false ∧
    "out" ∉ (check (mergeOptions { classToRemove := some (some "out") }) 800
        ⟨900, 950⟩ (initialState ⟨[]⟩)).classes :=
  ⟨rfl, by decide, by decide⟩

/-- C8 (amended): classToRemove (nonempty, if set) is the class applied on
deactivation: after any check in which the element is out of view while the
watcher is activated and repeat=true — the only situation in which an
out-of-view check mutates anything — the element carries classToRemove. -/
theorem C8_amended_classToRemove_on_deactivate (o : Options) (c : String)
    (vh : Int) (r : Rect) (s : WatcherState)
    (hc : o.classToRemove = some c) (hcne : c ≠ "")
    (hrep : o.repeat' = true) (hiv : inView o vh r = false)
    (hact : s.activated = true) :
    c ∈ (check o vh r s).classes := by
  have ht : strTruthy o.classToRemove = true := by
    rw [hc]; simpa [strTruthy] using hcne
  rw [check_eq_deactivate_of_repeat hrep hiv hact]
  simp [deactivate_classes, hc, strTruthy, hcne]

/-- Witness for C8 (amended): classToRemove "out", repeat=true, activated
watcher carrying "que", vh 800, rect (900, 950). -/
theorem C8_amended_classToRemove_on_deactivate_witness :
    "out" ∈ (check
        (mergeOptions { classToRemove := some (some "out"), repeat' := some true })
        800 ⟨900, 950⟩
        { classes := ["que"], activated := true, scrollAttached := true,
          resizeAttached := true, callbacks := [] }).classes :=
  C8_amended_classToRemove_on_deactivate
    (mergeOptions { classToRemove := some (some "out"), repeat' := some true })
    "out" 800 ⟨900, 950⟩
    { classes := ["que"], activated := true, scrollAttached := true,
      resizeAttached := true, callbacks := [] }
    rfl (by decide) rfl (by decide) rfl

/-- C4: with repeat=true and a callback configured, any sequence of signals
whose in-view values alternate starting in view, delivered to a fresh-state
(inactive, attached) watcher, produces the alternating callback trace
"add", "remove", "add", ...; moreover each in-view check applies classToAdd
and removes classToRemove, and each out-of-view check on an activated
watcher removes classToAdd and applies classToRemove (classToRemove nonempty
and distinct from classToAdd). -/
theorem C4_repeat_alternates (o : Options) (hrep : o.repeat' = true)
    (hcb : o.hasCallback = true) :
    (∀ (evs : List Event) (s : WatcherState),
       AltInView o true evs → s.activated = false →
       s.scrollAttached = true → s.resizeAttached = true →
       (signals o evs s).callbacks = s.callbacks ++ altActions true evs.length)
  ∧ (∀ (vh : Int) (r : Rect) (s : WatcherState) (c : String),
       inView o vh r = true → o.classToRemove = some c → c ≠ "" →
       c ≠ o.classToAdd →
       o.classToAdd ∈ (check o vh r s).classes ∧
       c ∉ (check o vh r s).classes ∧ (check o vh r s).activated = true)
  ∧ (∀ (vh : Int) (r : Rect) (s : WatcherState) (c : String),
       inView o vh r = false → s.activated = true → o.classToRemove = some c →
       c ≠ "" → c ≠ o.classToAdd →
       o.classToAdd ∉ (check o vh r s).classes ∧
       c ∈ (check o vh r s).classes ∧ (check o vh r s).activated = false) := by
  refine ⟨?_, ?_, ?_⟩
  · intro evs s hAlt hact h1 h2
    exact signals_alt_callbacks o hrep hcb evs true s hAlt (by simpa using hact) h1 h2
  · intro vh r s c hiv hc hcne hdist
    rw [check_eq_activate_of_repeat hrep hiv]
    refine ⟨?_, ?_, by simp⟩
    · simp [activate_classes, hc, strTruthy, hcne, mem_classRemove,
        mem_classAdd, Ne.symm hdist]
    · simp [activate_classes, hc, strTruthy, hcne]
  · intro vh r s c hiv hact hc hcne hdist
    rw [check_eq_deactivate_of_repeat hrep hiv hact]
    refine ⟨?_, ?_, by simp⟩
    · simp [deactivate_classes, hc, strTruthy, hcne, mem_classAdd,
        mem_classRemove, Ne.symm hdist]
    · simp [deactivate_classes, hc, strTruthy, hcne]

/-- Witness for C4: repeat=true, callback, classToRemove "out"; an in-view
then out-of-view signal pair produces the trace ["add", "remove"], and the
two single-check class effects at concrete states. -/
theorem C4_repeat_alternates_witness :
    (signals
        (mergeOptions { classToRemove := some (some "out"), repeat' := some true, hasCallback := some true })
        [⟨SignalKind.scroll, 800, ⟨0, 100⟩⟩, ⟨SignalKind.resize, 800, ⟨900, 950⟩⟩]
        (initialState ⟨[]⟩)).callbacks = ["add", "remove"] ∧
    "que" ∈ (check
        (mergeOptions { classToRemove := some (some "out"), repeat' := some true, hasCallback := some true }) 800 ⟨0, 100⟩ (initialState ⟨[]⟩)).classes ∧
    "out" ∈ (check
        (mergeOptions { classToRemove := some (some "out"), repeat' := some true, hasCallback := some true }) 800 ⟨900, 950⟩
        { classes := ["que"], activated := true, scrollAttached := true,
          resizeAttached := true, callbacks := ["add"] }).classes := by
  have h := C4_repeat_alternates
    (mergeOptions { classToRemove := some (some "out"), repeat' := some true, hasCallback := some true }) rfl rfl
  refine ⟨h.1 [⟨SignalKind.scroll, 800, ⟨0, 100⟩⟩,
      ⟨SignalKind.resize, 800, ⟨900, 950⟩⟩] (initialState ⟨[]⟩)
      ⟨by decide, by decide, trivial⟩ rfl rfl rfl, ?_, ?_⟩
  · exact (h.2.1 800 ⟨0, 100⟩ (initialState ⟨[]⟩) "out" (by decide) rfl
      (by decide) (by decide)).1
  · exact (h.2.2 800 ⟨900, 950⟩
      { classes := ["que"], activated := true, scrollAttached := true,
        resizeAttached := true, callbacks := ["add"] } "out" (by decide) rfl rfl
      (by decide) (by decide)).2.1

/-- C9: starting from a freshly constructed watcher state, after any
sequence of signals the callback log is either empty or begins with "add" —
the first callback invocation, if any, is an activation; and a check on a
not-yet-activated watcher never deactivates: it is a no-op or an
activation (possibly followed by the one-shot detach). -/
theorem C9_first_callback_is_add (o : Options) (evs : List Event)
    (el : Element) (vh : Int) (r : Rect) (s : WatcherState) :
    ((signals o evs (initialState el)).callbacks = [] ∨
     (signals o evs (initialState el)).callbacks.head? = some "add") ∧
    (s.activated = false →
      check o vh r s = s ∨ check o vh r s = activate o s ∨
      check o vh r s = detach (activate o s)) := by
  constructor
  · have h0 : CbInv o (initialState el) := by
      constructor
      · intro hne
        exact absurd rfl hne
      · intro hact _
        simp [initialState] at hact
    have h := signals_CbInv evs h0
    by_cases hne : (signals o evs (initialState el)).callbacks = []
    · exact Or.inl hne
    · exact Or.inr (h.1 hne)
  · intro hact
    rcases check_shape o vh r s with e | e | e | ⟨hact', _⟩
    · exact Or.inl e
    · exact Or.inr (Or.inl e)
    · exact Or.inr (Or.inr e)
    · rw [hact] at hact'
      exact absurd hact' (by simp)

/-- Witness for C9: defaults with a callback, a below-viewport then an
in-view scroll signal; the second conjunct at a fresh state. -/
theorem C9_first_callback_is_add_witness :
    ((signals (mergeOptions { hasCallback := some true })
        [⟨SignalKind.scroll, 800, ⟨900, 950⟩⟩, ⟨SignalKind.scroll, 800, ⟨0, 100⟩⟩]
        (initialState ⟨[]⟩)).callbacks = [] ∨
     (signals (mergeOptions { hasCallback := some true })
        [⟨SignalKind.scroll, 800, ⟨900, 950⟩⟩, ⟨SignalKind.scroll, 800, ⟨0, 100⟩⟩]
        (initialState ⟨[]⟩)).callbacks.head? = some "add") ∧
    (check (mergeOptions { hasCallback := some true }) 800 ⟨900, 950⟩
        (initialState ⟨[]⟩) = initialState ⟨[]⟩ ∨
     check (mergeOptions { hasCallback := some true }) 800 ⟨900, 950⟩
        (initialState ⟨[]⟩) =
       activate (mergeOptions { hasCallback := some true }) (initialState ⟨[]⟩) ∨
     check (mergeOptions { hasCallback := some true }) 800 ⟨900, 950⟩
        (initialState ⟨[]⟩) =
       detach (activate (mergeOptions { hasCallback := some true })
         (initialState ⟨[]⟩))) := by
  have h := C9_first_callback_is_add (mergeOptions { hasCallback := some true })
    [⟨SignalKind.scroll, 800, ⟨900, 950⟩⟩, ⟨SignalKind.scroll, 800, ⟨0, 100⟩⟩]
    ⟨[]⟩ 800 ⟨900, 950⟩ (initialState ⟨[]⟩)
  exact ⟨h.1, h.2 rfl⟩

/-- C10: with repeat=false (whatever the once flag), a check on an already
activated watcher changes nothing at all, delivering any signal sequence to
an activated watcher changes nothing, and from a fresh state the callback
log only ever becomes empty or the single entry "add": at most one
activation, never a deactivation. -/
theorem C10_norepeat_frozen_after_activation (o : Options)
    (hrep : o.repeat' = false) :
    (∀ (vh : Int) (r : Rect) (s : WatcherState), s.activated = true →
       check o vh r s = s)
  ∧ (∀ (evs : List Event) (s : WatcherState), s.activated = true →
       signals o evs s = s)
  ∧ (∀ (evs : List Event) (el : Element),
       (signals o evs (initialState el)).callbacks = [] ∨
       (signals o evs (initialState el)).callbacks = ["add"]) := by
  refine ⟨fun vh r s hact => check_eq_self_of_activated_norepeat hrep hact,
    fun evs s hact => signals_eq_self_of_activated_norepeat hrep hact evs, ?_⟩
  intro evs el
  rcases signals_callbacks_norepeat hrep evs (initialState el) rfl with h | h
  · exact Or.inl h
  · cases hcb : o.hasCallback with
    | false =>
      left
      rw [h]
      simp [hcb, initialState]
    | true =>
      right
      rw [h]
      simp [hcb, initialState]

/-- Witness for C10: defaults with a callback (once=true, repeat=false); a
frozen activated state, and one in-view scroll signal from a fresh state
logging exactly one "add". -/
theorem C10_norepeat_frozen_after_activation_witness :
    check (mergeOptions { hasCallback := some true }) 800 ⟨0, 100⟩
      { classes := ["que"], activated := true, scrollAttached := true,
        resizeAttached := true, callbacks := ["add"] } =
      { classes := ["que"], activated := true, scrollAttached := true,
        resizeAttached := true, callbacks := ["add"] } ∧
    ((signals (mergeOptions { hasCallback := some true })
        [⟨SignalKind.scroll, 800, ⟨0, 100⟩⟩] (initialState ⟨[]⟩)).callbacks = [] ∨
     (signals (mergeOptions { hasCallback := some true })
        [⟨SignalKind.scroll, 800, ⟨0, 100⟩⟩]
        (initialState ⟨[]⟩)).callbacks = ["add"]) := by
  have h := C10_norepeat_frozen_after_activation
    (mergeOptions { hasCallback := some true }) rfl
  exact ⟨h.1 800 ⟨0, 100⟩ _ rfl, h.2.2 [⟨SignalKind.scroll, 800, ⟨0, 100⟩⟩] ⟨[]⟩⟩

end Que
